import Mathlib

/-!
Verification development for the simulated-trading application
(`src/components/ui/gauge-meter.tsx`).

The program's numeric values (JS numbers) are embedded as rationals `ℚ`,
so every definition is computable and decidable on concrete inputs.
Each call to `Math.random()` in the source is embedded as an explicit
draw parameter (a rational, uniform draws lie in `[0,1)`); `Math.log1p`
is embedded as an abstract function parameter `log1p : ℚ → ℚ` since its
value is irrational (the theorems that touch it hold for every `log1p`).
Timer-driven mutation (`setTimeout`/`setInterval` callbacks) is embedded
as explicit state-passing: a handler returns the state after its
deferred callback ran, or returns a pending-settlement record that a
separate apply function consumes.
-/

namespace GaugeMeter

/-- Key of a market regime (`type PriceRegimeKey = "LOW" | "MID" | "HIGH"`). -/
inductive PriceRegimeKey
  | LOW
  | MID
  | HIGH
deriving DecidableEq, Repr

/-- Trend key (`type TrendKey = "UP" | "DOWN" | "SIDEWAYS"`). -/
inductive TrendKey
  | UP
  | DOWN
  | SIDEWAYS
deriving DecidableEq, Repr

/-- Successor field of a regime: either a single key or a pair of keys
(`next: PriceRegimeKey | [PriceRegimeKey, PriceRegimeKey]`). -/
inductive RegimeNext
  | single (k : PriceRegimeKey)
  | pair (a b : PriceRegimeKey)
deriving DecidableEq, Repr

/-- One market regime (`type PriceRegime`), with `range: [number, number]`
split into `rangeMin`/`rangeMax`. -/
structure PriceRegime where
  name : String
  rangeMin : ℚ
  rangeMax : ℚ
  leaveProb : ℚ
  next : RegimeNext
deriving DecidableEq, Repr

/-- The static regime table `priceRegimes` from the source. -/
def priceRegimes : PriceRegimeKey → PriceRegime
  | .LOW =>
    { name := "Bearish Market"
      rangeMin := 35000
      rangeMax := 61000
      leaveProb := 1/10
      next := .single .MID }
  | .MID =>
    { name := "Market Consolidation"
      rangeMin := 61000
      rangeMax := 75000
      leaveProb := 5/1000
      next := .pair .LOW .HIGH }
  | .HIGH =>
    { name := "Bull Run"
      rangeMin := 75000
      rangeMax := 120000
      leaveProb := 1/10
      next := .single .MID }

/-- `const INITIAL_PRICE = 65000`. -/
def INITIAL_PRICE : ℚ := 65000

/-- `const EXTREME_MODE_THRESHOLD = 1_000_000`. -/
def EXTREME_MODE_THRESHOLD : ℚ := 1000000

/-- `const GOLDFLY_LOCKOUT_THRESHOLD = 10_000_000`. -/
def GOLDFLY_LOCKOUT_THRESHOLD : ℚ := 10000000

/-- `const BITCRASH_LOCKOUT_THRESHOLD = 25_000_000`. -/
def BITCRASH_LOCKOUT_THRESHOLD : ℚ := 25000000

/-- `const GOLDFLY_PAYOUT_RATE = 1.4`. -/
def GOLDFLY_PAYOUT_RATE : ℚ := 14/10

/-- Input of `calculateTrade` (`Omit<UserData, todaysPL>`). -/
structure UserData where
  usdBalance : ℚ
  btcBalance : ℚ
  avgBtcCost : ℚ
deriving DecidableEq, Repr

/-- Return value of `calculateTrade`: the spread of `currentUserData`
plus `tradePL`, `btcAmountTraded`, `saleProceeds`. -/
structure TradeResult where
  usdBalance : ℚ
  btcBalance : ℚ
  avgBtcCost : ℚ
  tradePL : ℚ
  btcAmountTraded : ℚ
  saleProceeds : ℚ
deriving DecidableEq, Repr

/-- Trade direction (`tradeType: "buy" | "sell"`). -/
inductive TradeType
  | buy
  | sell
deriving DecidableEq, Repr

/-- The pure ledger function `calculateTrade(tradeType, amountInUsd, price,
currentUserData)` from the source, transcribed branch for branch. -/
def calculateTrade (tradeType : TradeType) (amountInUsd : ℚ) (price : ℚ)
    (currentUserData : UserData) : TradeResult :=
  let usdBalance := currentUserData.usdBalance
  let btcBalance := currentUserData.btcBalance
  let avgBtcCost := currentUserData.avgBtcCost
  match tradeType with
  | .buy =>
    let btcAmount := amountInUsd / price
    let costOfNewBtc := amountInUsd
    let totalCostOfExistingBtc := btcBalance * avgBtcCost
    let newTotalBtc := btcBalance + btcAmount
    let newTotalCost := totalCostOfExistingBtc + costOfNewBtc
    { usdBalance := usdBalance - costOfNewBtc
      btcBalance := newTotalBtc
      avgBtcCost := if 0 < newTotalBtc then newTotalCost / newTotalBtc else 0
      tradePL := 0
      btcAmountTraded := btcAmount
      saleProceeds := 0 }
  | .sell =>
    let btcToSell := amountInUsd / price
    let proceedsFromSale := btcToSell * price
    let costOfBtcSold := btcToSell * avgBtcCost
    let tradePL := proceedsFromSale - costOfBtcSold
    let newBtcBalance := btcBalance - btcToSell
    { usdBalance := usdBalance + proceedsFromSale
      btcBalance := newBtcBalance
      avgBtcCost := if newBtcBalance < 1/100000000 then 0 else avgBtcCost
      tradePL := tradePL
      btcAmountTraded := btcToSell
      saleProceeds := proceedsFromSale }

/-- State owned by the price tick engine: `currentPrice`, `priceRegime`,
`trend`, and the `trendUpdatesLeft` ref. -/
structure PriceState where
  currentPrice : ℚ
  regime : PriceRegimeKey
  trend : TrendKey
  trendUpdatesLeft : ℤ
deriving DecidableEq, Repr

/-- The random draws one invocation of `updatePrice` may consume, one field
per `Math.random()` call site, in source order.  A uniform draw lies in
`[0,1)`; the floor theorem below needs no bound at all. -/
structure TickRand where
  leaveDraw : ℚ
  pairDraw : ℚ
  coinDraw : ℚ
  trendDraw : ℚ
  durDraw : ℚ
  volDraw : ℚ
  changeDraw : ℚ
  signDraw : ℚ
  magDraw : ℚ
  biasDraw : ℚ
  whaleDraw : ℚ
deriving DecidableEq, Repr

/-- Resolution of `currentRegime.next` inside the regime-transition block:
a pair is resolved by the 10/10/80 weighted draw when the current key is
`MID`, otherwise by a fair coin between the two elements (dead in the shipped
table, kept for fidelity); a single successor is taken outright. -/
def resolveNext (key : PriceRegimeKey) (pairDraw coinDraw : ℚ) : PriceRegimeKey :=
  match (priceRegimes key).next with
  | .single k => k
  | .pair a b =>
    if key = .MID then
      if pairDraw < 1/10 then .LOW
      else if pairDraw < 2/10 then .HIGH
      else .MID
    else if coinDraw < 1/2 then a else b

/-- The regime-transition test: leave the current regime exactly when the
leave draw lands under `leaveProb` (`Math.random() < currentRegime.leaveProb`). -/
def regimeStep (key : PriceRegimeKey) (leaveDraw pairDraw coinDraw : ℚ) : PriceRegimeKey :=
  if leaveDraw < (priceRegimes key).leaveProb then resolveNext key pairDraw coinDraw
  else key

/-- The full regime-transition block of `updatePrice` (source lines 388-409):
computes the new regime key and, when the key actually changed, resets the
trend to `SIDEWAYS` and the trend counter to `0`. -/
def regimeTransition (s : PriceState) (leaveDraw pairDraw coinDraw : ℚ) :
    PriceRegimeKey × TrendKey × ℤ :=
  let key1 := regimeStep s.regime leaveDraw pairDraw coinDraw
  if key1 ≠ s.regime then (key1, .SIDEWAYS, 0)
  else (key1, s.trend, s.trendUpdatesLeft)

/-- The trend block of `updatePrice`: inside `MID`, an expired counter draws
a fresh trend (45% UP, 45% DOWN, 10% SIDEWAYS) and a duration in `[50,150)`;
otherwise the counter decrements; outside `MID` the trend is forced to
`SIDEWAYS` without touching the counter. -/
def trendStep (key : PriceRegimeKey) (trend : TrendKey) (ticks : ℤ)
    (trendDraw durDraw : ℚ) : TrendKey × ℤ :=
  if key = .MID then
    if ticks ≤ 0 then
      (if trendDraw < 45/100 then .UP
       else if trendDraw < 9/10 then .DOWN
       else .SIDEWAYS,
       50 + ⌊durDraw * 100⌋)
    else (trend, ticks - 1)
  else (.SIDEWAYS, ticks)

/-- One invocation of `updatePrice` (the closure passed to `setCurrentPrice`
plus its surrounding regime/trend bookkeeping).  `avgBtcCost`/`btcBalance`
are the cross-component snapshot reads (`avgBtcCostRef`, `btcBalanceRef`);
`log1p` embeds `Math.log1p`.  Note that the trend-bias step reads the
pre-tick regime and trend (`regimeRef.current`/`trendRef.current` are only
refreshed after the render), which the embedding reproduces via `s.regime`
and `s.trend`. -/
def updatePrice (log1p : ℚ → ℚ) (avgBtcCost btcBalance : ℚ) (r : TickRand)
    (s : PriceState) : PriceState :=
  let t := regimeTransition s r.leaveDraw r.pairDraw r.coinDraw
  let key1 := t.1
  let tt := trendStep key1 t.2.1 t.2.2 r.trendDraw r.durDraw
  let prevPrice := s.currentPrice
  let percentageChange : ℚ :=
    if r.volDraw < 9/10 then (r.changeDraw - 1/2) * (1/100)
    else if r.volDraw < 98/100 then (r.changeDraw - 1/2) * (4/100)
    else (if r.signDraw > 1/2 then 1 else -1) * (4/100 + r.magDraw * (4/100))
  let changeAmount := prevPrice * percentageChange
  let changeAmount :=
    if s.regime = .MID then
      if s.trend = .UP then changeAmount + prevPrice * (15/10000) * r.biasDraw
      else if s.trend = .DOWN then changeAmount - prevPrice * (15/10000) * r.biasDraw
      else changeAmount
    else changeAmount
  let unrealizedPL := (prevPrice - avgBtcCost) * btcBalance
  let changeAmount :=
    if 0 < unrealizedPL ∧ 0 < btcBalance then
      changeAmount - prevPrice * ((log1p unrealizedPL * (1/10)) / 1000) * r.whaleDraw
    else changeAmount
  let newPrice := prevPrice + changeAmount
  let minRange := (priceRegimes key1).rangeMin
  let maxRange := (priceRegimes key1).rangeMax
  let newPrice :=
    if newPrice < minRange then
      newPrice + (minRange - newPrice) * min (1/2) ((minRange - newPrice) / minRange)
    else if newPrice > maxRange then
      newPrice - (newPrice - maxRange) * min (1/2) ((newPrice - maxRange) / maxRange)
    else newPrice
  { currentPrice := max ((priceRegimes .LOW).rangeMin * (9/10)) newPrice
    regime := key1
    trend := tt.1
    trendUpdatesLeft := tt.2 }

/-- GoldFly bet direction (`'up' | 'down'`). -/
inductive GFDir
  | up
  | down
deriving DecidableEq, Repr

/-- GoldFly session state (`'idle' | 'running' | 'finished'`). -/
inductive GFState
  | idle
  | running
  | finished
deriving DecidableEq, Repr

/-- BitCrash session state (`'idle' | 'running' | 'blasted' | 'withdrawn'`). -/
inductive BCState
  | idle
  | running
  | blasted
  | withdrawn
deriving DecidableEq, Repr

/-- The typed rejections surfaced as destructive toasts by the handlers. -/
inductive TradeError
  | insufficientFunds
  | sellDisabledExtreme
deriving DecidableEq, Repr

/-- A scheduled deferred settlement: the sell branch of `handleTrade`
registers one `setTimeout(..., 2000)` whose closure captured
`result.usdBalance` (here `baseUsd`) and `newPL` (here `snappedPL`). -/
structure Settlement where
  delayMs : ℚ
  baseUsd : ℚ
  snappedPL : ℚ
deriving DecidableEq, Repr

/-- The dashboard state the command handlers touch: balances, `todaysPL`,
the current price, the `isTrading` latch and the two wager sessions. -/
structure Dash where
  usdBalance : ℚ
  btcBalance : ℚ
  avgBtcCost : ℚ
  todaysPL : ℚ
  currentPrice : ℚ
  isTrading : Bool
  goldFlyState : GFState
  goldFlyBet : Option (GFDir × ℚ)
  bitCrashState : BCState
  gainPercent : ℚ
  isTurboRound : Bool
deriving DecidableEq, Repr

/-- `const portfolioValue = usdBalance + btcBalance * currentPrice`. -/
def portfolioValue (s : Dash) : ℚ :=
  s.usdBalance + s.btcBalance * s.currentPrice

/-- The position snapshot `currentUserData` fed to `calculateTrade`. -/
def posOf (s : Dash) : UserData :=
  { usdBalance := s.usdBalance
    btcBalance := s.btcBalance
    avgBtcCost := s.avgBtcCost }

/-- `handleTrade(values, type)`: the buy/sell command.  The extreme-mode test
embeds the `isExtremeMode` flag, which the effect at source lines 566-580
keeps equal to `portfolioValue >= EXTREME_MODE_THRESHOLD`.  The returned
triple is the state after the handler finished (with `isTrading` released by
the `finally` block or the early returns), the rejection if any, and the one
deferred settlement a sell schedules. -/
def handleTrade (tradeType : TradeType) (amountInUsd : ℚ) (winDraw : ℚ)
    (s : Dash) : Dash × Option TradeError × Option Settlement :=
  if s.isTrading then (s, none, none)
  else if EXTREME_MODE_THRESHOLD ≤ portfolioValue s then
    match tradeType with
    | .sell => ({ s with isTrading := false }, some .sellDisabledExtreme, none)
    | .buy =>
      if s.usdBalance < amountInUsd then
        ({ s with isTrading := false }, some .insufficientFunds, none)
      else
        let payout := if winDraw < 1/5 then amountInUsd * (19/10) else -amountInUsd
        ({ s with usdBalance := s.usdBalance + payout, isTrading := false }, none, none)
  else
    match tradeType with
    | .buy =>
      if s.usdBalance < amountInUsd then
        ({ s with isTrading := false }, some .insufficientFunds, none)
      else
        let result := calculateTrade .buy amountInUsd s.currentPrice (posOf s)
        ({ s with usdBalance := result.usdBalance
                  btcBalance := result.btcBalance
                  avgBtcCost := result.avgBtcCost
                  isTrading := false }, none, none)
    | .sell =>
      if s.btcBalance < amountInUsd / s.currentPrice then
        ({ s with isTrading := false }, some .insufficientFunds, none)
      else
        let result := calculateTrade .sell amountInUsd s.currentPrice (posOf s)
        let newPL := s.todaysPL + result.tradePL
        ({ s with usdBalance := result.usdBalance
                  btcBalance := result.btcBalance
                  avgBtcCost := result.avgBtcCost
                  todaysPL := newPL
                  isTrading := false },
         none,
         some { delayMs := 2000, baseUsd := result.usdBalance, snappedPL := newPL })

/-- The deferred-settlement callback of the sell branch: at fire time it sets
`usdBalance := result.usdBalance + currentPL` (both captured at trade time)
and `todaysPL := 0`. -/
def applySettlement (s : Dash) (sett : Settlement) : Dash :=
  { s with usdBalance := sett.baseUsd + sett.snappedPL, todaysPL := 0 }

/-- `handleGoldFlyTrade(values, direction)`: start (or reset) an Ascending
Bet.  A `none` amount embeds the `!values.amount` early return.  On a
successful start the stake is deducted immediately and the session runs. -/
def handleGoldFlyTrade (amount : Option ℚ) (direction : GFDir) (s : Dash) :
    Dash × Option TradeError :=
  match amount with
  | none => (s, none)
  | some betAmount =>
    if s.isTrading then (s, none)
    else if s.goldFlyState = .finished then
      ({ s with goldFlyState := .idle, goldFlyBet := none }, none)
    else if s.usdBalance < betAmount then (s, some .insufficientFunds)
    else
      ({ s with isTrading := true
                goldFlyBet := some (direction, betAmount)
                goldFlyState := .running
                usdBalance := s.usdBalance - betAmount }, none)

/-- The GoldFly resolution effect (source lines 528-563), run once the final
altitude is known: compares the altitude to the bet line at 50, credits the
full payout `betAmount * GOLDFLY_PAYOUT_RATE` on a win (the stake was already
deducted at start) and nothing on a loss, then finishes the session. -/
def goldFlyResolve (finalAltitude : ℚ) (s : Dash) : Dash :=
  match s.goldFlyBet with
  | none => s
  | some (direction, betAmount) =>
    let betLineAltitude : ℚ := 50
    let isWin := (direction = .up ∧ betLineAltitude < finalAltitude) ∨
                 (direction = .down ∧ finalAltitude < betLineAltitude)
    let finalUsdBalance :=
      if isWin then s.usdBalance + betAmount * GOLDFLY_PAYOUT_RATE
      else s.usdBalance
    { s with usdBalance := finalUsdBalance
             goldFlyState := .finished
             isTrading := false }

/-- `handleBitCrashFly(values)`: start (or reset) an Escalating Crash round.
On acceptance the returned state is the one after the 3000ms pre-roll
delay elapsed: stake deducted, round running, gain reset, turbo rolled with
probability `0.08` (`turboDraw` embeds that `Math.random()` call). -/
def handleBitCrashFly (amount : Option ℚ) (turboDraw : ℚ) (s : Dash) :
    Dash × Option TradeError :=
  match amount with
  | none => (s, none)
  | some betAmount =>
    if s.isTrading then (s, none)
    else if s.bitCrashState = .blasted ∨ s.bitCrashState = .withdrawn then
      ({ s with bitCrashState := .idle, gainPercent := 0 }, none)
    else if s.usdBalance < betAmount then (s, some .insufficientFunds)
    else
      ({ s with isTrading := true
                usdBalance := s.usdBalance - betAmount
                bitCrashState := .running
                gainPercent := 0
                isTurboRound := decide (turboDraw < 8/100) }, none)

/-- The `blastChance` lookup inside the BitCrash interval callback,
transcribed from the source's turbo and standard branches. -/
def blastChance (isTurbo : Bool) (newGain : ℚ) : ℚ :=
  if isTurbo then
    if 80 < newGain ∧ newGain < 90 then 1/4
    else if 90 ≤ newGain then 1
    else 0
  else
    if newGain < 15 then 35/1000
    else if newGain < 30 then 22/100
    else if newGain < 70 then 43/100
    else if newGain < 90 then 55/100
    else 99/100

/-- One 50ms BitCrash interval callback: increment the gain by
`Math.random() * 0.5`, look `blastChance` up at the incremented gain, then
blast when the blast draw lands under `blastChance / 20` (the callback then
keeps `prevGain` and stops the interval). -/
def bitCrashTick (isTurbo : Bool) (gainDraw blastDraw : ℚ) (prevGain : ℚ) :
    ℚ × Bool :=
  let newGain := prevGain + gainDraw * (1/2)
  if blastDraw < blastChance isTurbo newGain / 20 then (prevGain, true)
  else (newGain, false)

/-- `const isGoldFlyLocked = usdBalance > GOLDFLY_LOCKOUT_THRESHOLD`. -/
def isGoldFlyLocked (s : Dash) : Bool :=
  decide (GOLDFLY_LOCKOUT_THRESHOLD < s.usdBalance)

/-- `const isBitCrashLocked = usdBalance > BITCRASH_LOCKOUT_THRESHOLD`. -/
def isBitCrashLocked (s : Dash) : Bool :=
  decide (BITCRASH_LOCKOUT_THRESHOLD < s.usdBalance)

/-- A press of the GoldFly Up/Down buttons as rendered: the buttons carry
`disabled={isTrading || isGoldFlyLocked || goldFlyState === running}`, and a
disabled button never invokes its handler, so a press in that state is a
no-op. -/
def goldFlyPress (amount : Option ℚ) (direction : GFDir) (s : Dash) :
    Dash × Option TradeError :=
  if s.isTrading || isGoldFlyLocked s || decide (s.goldFlyState = .running) then (s, none)
  else handleGoldFlyTrade amount direction s

/-- A press of the BitCrash Fly button as rendered: while the round runs the
Fly button is replaced by Withdraw, and otherwise it carries
`disabled={isTrading || isBitCrashLocked}`; a disabled or absent button never
invokes `handleBitCrashFly`. -/
def bitCrashPress (amount : Option ℚ) (turboDraw : ℚ) (s : Dash) :
    Dash × Option TradeError :=
  if s.bitCrashState = .running then (s, none)
  else if s.isTrading || isBitCrashLocked s then (s, none)
  else handleBitCrashFly amount turboDraw s

/-- C1: for every price state, position snapshot, `log1p` interpretation and
every outcome of the random draws, one invocation of `updatePrice` returns a
price that is at least `0.9 * LOW.priceBand.min = 31500`, hence in particular
positive. -/
theorem C1_price_floor (log1p : ℚ → ℚ) (avgBtcCost btcBalance : ℚ)
    (r : TickRand) (s : PriceState) :
    (9/10) * (priceRegimes .LOW).rangeMin ≤
      (updatePrice log1p avgBtcCost btcBalance r s).currentPrice ∧
    (9/10) * (priceRegimes .LOW).rangeMin = 31500 ∧
    0 < (updatePrice log1p avgBtcCost btcBalance r s).currentPrice := by
  have hfloor : (9/10) * (priceRegimes .LOW).rangeMin ≤
      (updatePrice log1p avgBtcCost btcBalance r s).currentPrice := by
    show (9/10) * (priceRegimes .LOW).rangeMin ≤ max ((priceRegimes .LOW).rangeMin * (9/10)) _
    rw [show (9/10 : ℚ) * (priceRegimes .LOW).rangeMin
          = (priceRegimes .LOW).rangeMin * (9/10) from mul_comm _ _]
    exact le_max_left _ _
  refine ⟨hfloor, by norm_num [priceRegimes], lt_of_lt_of_le ?_ hfloor⟩
  norm_num [priceRegimes]

/-- C2: at any position with cash balance `c`, any price `p > 0` and any
positive `usdAmount` `a`, `calculateTrade` yields cash balance exactly
`c - a` on a buy and exactly `c + a` on a sell (the sale proceeds are
computed as `(a / p) * p`, which cancels exactly). -/
theorem C2_ledger_conservation (a p : ℚ) (u : UserData)
    (hp : 0 < p) (ha : 0 < a) :
    (calculateTrade .buy a p u).usdBalance = u.usdBalance - a ∧
    (calculateTrade .sell a p u).usdBalance = u.usdBalance + a := by
  refine ⟨rfl, ?_⟩
  show u.usdBalance + a / p * p = u.usdBalance + a
  rw [div_mul_cancel₀ _ (ne_of_gt hp)]

/-- C2 witness: concrete evaluation at `c = 1000`, `p = 50000`, `a = 100`. -/
theorem C2_ledger_conservation_witness :
    (calculateTrade .buy 100 50000 ⟨1000, 0, 0⟩).usdBalance = 1000 - 100 ∧
    (calculateTrade .sell 100 50000 ⟨1000, 0, 0⟩).usdBalance = 1000 + 100 :=
  C2_ledger_conservation 100 50000 ⟨1000, 0, 0⟩ (by norm_num) (by norm_num)

/-- C3: after a buy of `a` USD at price `p > 0` from a nonnegative holding,
the average cost is `(btcBalance * avgBtcCost + a) / (btcBalance + a / p)`;
after a sell the average cost is unchanged unless the resulting holding falls
below the dust threshold `1e-8`, in which case it is reset to `0`. -/
theorem C3_avg_cost (a p : ℚ) (u : UserData)
    (hp : 0 < p) (ha : 0 < a) (hb : 0 ≤ u.btcBalance) :
    (calculateTrade .buy a p u).avgBtcCost
        = (u.btcBalance * u.avgBtcCost + a) / (u.btcBalance + a / p) ∧
    ((calculateTrade .sell a p u).btcBalance < 1/100000000 →
      (calculateTrade .sell a p u).avgBtcCost = 0) ∧
    (¬ (calculateTrade .sell a p u).btcBalance < 1/100000000 →
      (calculateTrade .sell a p u).avgBtcCost = u.avgBtcCost) := by
  refine ⟨?_, ?_, ?_⟩
  · have hpos : 0 < u.btcBalance + a / p := by positivity
    show (if 0 < u.btcBalance + a / p then _ else 0) = _
    rw [if_pos hpos]
  · intro h
    show (if (calculateTrade .sell a p u).btcBalance < 1/100000000 then (0:ℚ)
          else u.avgBtcCost) = 0
    rw [if_pos h]
  · intro h
    show (if (calculateTrade .sell a p u).btcBalance < 1/100000000 then (0:ℚ)
          else u.avgBtcCost) = u.avgBtcCost
    rw [if_neg h]

/-- C3 witness: buying 100 USD at price 50 on top of 2 BTC held at average
cost 40 gives average cost `(2*40 + 100)/(2 + 2) = 45`; selling the whole
holding resets the average cost to `0`, a partial sell keeps it. -/
theorem C3_avg_cost_witness :
    (calculateTrade .buy 100 50 ⟨1000, 2, 40⟩).avgBtcCost
        = (2 * 40 + 100) / (2 + 100 / 50) ∧
    ((calculateTrade .sell 100 50 ⟨1000, 2, 40⟩).btcBalance < 1/100000000 →
      (calculateTrade .sell 100 50 ⟨1000, 2, 40⟩).avgBtcCost = 0) ∧
    (¬ (calculateTrade .sell 100 50 ⟨1000, 2, 40⟩).btcBalance < 1/100000000 →
      (calculateTrade .sell 100 50 ⟨1000, 2, 40⟩).avgBtcCost = 40) :=
  C3_avg_cost 100 50 ⟨1000, 2, 40⟩ (by norm_num) (by norm_num) (by norm_num)

theorem isTrading_reset_eq (s : Dash) (h : s.isTrading = false) :
    ({ s with isTrading := false } : Dash) = s := by
  cases s
  simp_all

/-- C4: rejected commands are all-or-nothing.  A buy with `usdAmount`
over the cash balance (in either mode), a sell with USD-equivalent over the
asset balance, and a wager start with stake over the cash balance are each
rejected with the insufficient-funds error and return the state exactly
unchanged — in particular the cash balance is exactly what it was, so a
rejection can never drive it negative. -/
theorem C4_rejections_all_or_nothing (s : Dash) (a w td : ℚ) (dir : GFDir)
    (hidle : s.isTrading = false) :
    (s.usdBalance < a →
       handleTrade .buy a w s = (s, some .insufficientFunds, none)) ∧
    (portfolioValue s < EXTREME_MODE_THRESHOLD →
     s.btcBalance < a / s.currentPrice →
       handleTrade .sell a w s = (s, some .insufficientFunds, none)) ∧
    (s.goldFlyState = .idle → s.usdBalance < a →
       handleGoldFlyTrade (some a) dir s = (s, some .insufficientFunds)) ∧
    (s.bitCrashState = .idle → s.usdBalance < a →
       handleBitCrashFly (some a) td s = (s, some .insufficientFunds)) := by
  refine ⟨?_, ?_, ?_, ?_⟩
  · intro hlt
    unfold handleTrade
    rw [hidle]
    simp only [Bool.false_eq_true, if_false]
    split_ifs with hx
    · rw [isTrading_reset_eq s hidle]
    · rw [isTrading_reset_eq s hidle]
  · intro hpv hlt
    unfold handleTrade
    rw [hidle]
    simp only [Bool.false_eq_true, if_false]
    rw [if_neg (not_le.mpr hpv), if_pos hlt, isTrading_reset_eq s hidle]
  · intro hgf hlt
    unfold handleGoldFlyTrade
    rw [hidle, hgf]
    simp only [Bool.false_eq_true, if_false]
    rw [if_neg (by simp), if_pos hlt]
  · intro hbc hlt
    unfold handleBitCrashFly
    rw [hidle, hbc]
    simp only [Bool.false_eq_true, if_false]
    rw [if_neg (by simp), if_pos hlt]

/-- C4 witness: with 50 USD cash, a 100 USD buy, a 100 USD-equivalent sell,
a 100 USD GoldFly stake and a 100 USD BitCrash stake are all rejected with
the insufficient-funds error, state unchanged. -/
theorem C4_rejections_all_or_nothing_witness :
    handleTrade .buy 100 0 ⟨50, 0, 0, 0, 100, false, .idle, none, .idle, 0, false⟩
      = (⟨50, 0, 0, 0, 100, false, .idle, none, .idle, 0, false⟩,
         some .insufficientFunds, none) ∧
    handleTrade .sell 100 0 ⟨50, 0, 0, 0, 100, false, .idle, none, .idle, 0, false⟩
      = (⟨50, 0, 0, 0, 100, false, .idle, none, .idle, 0, false⟩,
         some .insufficientFunds, none) ∧
    handleGoldFlyTrade (some 100) .up
        ⟨50, 0, 0, 0, 100, false, .idle, none, .idle, 0, false⟩
      = (⟨50, 0, 0, 0, 100, false, .idle, none, .idle, 0, false⟩,
         some .insufficientFunds) ∧
    handleBitCrashFly (some 100) 0
        ⟨50, 0, 0, 0, 100, false, .idle, none, .idle, 0, false⟩
      = (⟨50, 0, 0, 0, 100, false, .idle, none, .idle, 0, false⟩,
         some .insufficientFunds) := by
  have h := C4_rejections_all_or_nothing
      ⟨50, 0, 0, 0, 100, false, .idle, none, .idle, 0, false⟩ 100 0 0 .up rfl
  exact ⟨h.1 (by norm_num),
         h.2.1 (by norm_num [portfolioValue, EXTREME_MODE_THRESHOLD]) (by norm_num),
         h.2.2.1 rfl (by norm_num), h.2.2.2 rfl (by norm_num)⟩

/-- C5: an accepted sell schedules exactly one deferred settlement, with the
fixed 2000ms delay, whose snapshot is the unsettled P&L at trade time
(`todaysPL` right after the sell); applying the settlement sets the cash
balance to the post-sell balance plus that snapshot and brings the unsettled
P&L down by the same amount, to zero. -/
theorem C5_sell_settlement (s : Dash) (a w : ℚ)
    (hidle : s.isTrading = false)
    (hm : portfolioValue s < EXTREME_MODE_THRESHOLD)
    (hsell : ¬ s.btcBalance < a / s.currentPrice) :
    (handleTrade .sell a w s).2.2
        = some { delayMs := 2000
                 baseUsd := (calculateTrade .sell a s.currentPrice (posOf s)).usdBalance
                 snappedPL := s.todaysPL
                   + (calculateTrade .sell a s.currentPrice (posOf s)).tradePL } ∧
    (handleTrade .sell a w s).1.usdBalance
        = (calculateTrade .sell a s.currentPrice (posOf s)).usdBalance ∧
    (handleTrade .sell a w s).1.todaysPL
        = s.todaysPL + (calculateTrade .sell a s.currentPrice (posOf s)).tradePL ∧
    (∀ sett : Settlement, (handleTrade .sell a w s).2.2 = some sett →
      (applySettlement (handleTrade .sell a w s).1 sett).usdBalance
          = (handleTrade .sell a w s).1.usdBalance
              + (handleTrade .sell a w s).1.todaysPL ∧
      (applySettlement (handleTrade .sell a w s).1 sett).todaysPL
          = (handleTrade .sell a w s).1.todaysPL - sett.snappedPL ∧
      (applySettlement (handleTrade .sell a w s).1 sett).todaysPL = 0) := by
  have hout : handleTrade .sell a w s
      = ({ s with usdBalance := (calculateTrade .sell a s.currentPrice (posOf s)).usdBalance
                  btcBalance := (calculateTrade .sell a s.currentPrice (posOf s)).btcBalance
                  avgBtcCost := (calculateTrade .sell a s.currentPrice (posOf s)).avgBtcCost
                  todaysPL := s.todaysPL
                    + (calculateTrade .sell a s.currentPrice (posOf s)).tradePL
                  isTrading := false },
         none,
         some { delayMs := 2000
                baseUsd := (calculateTrade .sell a s.currentPrice (posOf s)).usdBalance
                snappedPL := s.todaysPL
                  + (calculateTrade .sell a s.currentPrice (posOf s)).tradePL }) := by
    unfold handleTrade
    rw [hidle]
    simp only [Bool.false_eq_true, if_false]
    rw [if_neg (not_le.mpr hm), if_neg hsell]
  rw [hout]
  refine ⟨rfl, rfl, rfl, ?_⟩
  intro sett hsett
  obtain rfl : sett
      = { delayMs := 2000
          baseUsd := (calculateTrade .sell a s.currentPrice (posOf s)).usdBalance
          snappedPL := s.todaysPL
            + (calculateTrade .sell a s.currentPrice (posOf s)).tradePL } :=
    (Option.some_injective _ hsett).symm
  refine ⟨rfl, ?_, ?_⟩
  · show (0 : ℚ) = _ - _
    ring
  · rfl

/-- C5 witness: selling the full 1 BTC position held at average cost 40000
at price 50000 from 0 USD cash and 0 prior unsettled P&L schedules one
settlement of 10000 after 2000ms, and applying it yields 60000 USD and zero
unsettled P&L. -/
theorem C5_sell_settlement_witness :
    (handleTrade .sell 50000 0
        ⟨0, 1, 40000, 0, 50000, false, .idle, none, .idle, 0, false⟩).2.2
      = some { delayMs := 2000
               baseUsd := (calculateTrade .sell 50000 50000
                  (posOf ⟨0, 1, 40000, 0, 50000, false, .idle, none, .idle, 0, false⟩)).usdBalance
               snappedPL := 0 + (calculateTrade .sell 50000 50000
                  (posOf ⟨0, 1, 40000, 0, 50000, false, .idle, none, .idle, 0, false⟩)).tradePL } ∧
    (handleTrade .sell 50000 0
        ⟨0, 1, 40000, 0, 50000, false, .idle, none, .idle, 0, false⟩).1.usdBalance
      = (calculateTrade .sell 50000 50000
          (posOf ⟨0, 1, 40000, 0, 50000, false, .idle, none, .idle, 0, false⟩)).usdBalance := by
  have h := C5_sell_settlement
      ⟨0, 1, 40000, 0, 50000, false, .idle, none, .idle, 0, false⟩ 50000 0
      rfl (by norm_num [portfolioValue, EXTREME_MODE_THRESHOLD]) (by norm_num)
  exact ⟨h.1, h.2.1⟩

/-- C6: one BitCrash interval tick first increments the accumulated gain by
`gainDraw * 0.5` (a `Uniform(0,0.5)` draw when `gainDraw` is uniform on
`[0,1)`), then blasts exactly when the blast draw lands under
`blastChance / 20`, where `blastChance` is looked up at the post-increment
gain: standard table `0.035 / 0.22 / 0.43 / 0.55 / 0.99` on the cutoffs
`15, 30, 70, 90`, turbo table `0.25` strictly between 80 and 90, `1` at or
above 90, `0` otherwise. -/
theorem C6_bitcrash_tick (isTurbo : Bool) (gainDraw blastDraw prevGain : ℚ) :
    (bitCrashTick isTurbo gainDraw blastDraw prevGain
      = if blastDraw < blastChance isTurbo (prevGain + gainDraw * (1/2)) / 20
        then (prevGain, true)
        else (prevGain + gainDraw * (1/2), false)) ∧
    (∀ g : ℚ, isTurbo = false →
       (g < 15 → blastChance isTurbo g = 35/1000) ∧
       (15 ≤ g → g < 30 → blastChance isTurbo g = 22/100) ∧
       (30 ≤ g → g < 70 → blastChance isTurbo g = 43/100) ∧
       (70 ≤ g → g < 90 → blastChance isTurbo g = 55/100) ∧
       (90 ≤ g → blastChance isTurbo g = 99/100)) ∧
    (∀ g : ℚ, isTurbo = true →
       (80 < g → g < 90 → blastChance isTurbo g = 1/4) ∧
       (90 ≤ g → blastChance isTurbo g = 1) ∧
       (g ≤ 80 → blastChance isTurbo g = 0)) := by
  refine ⟨rfl, ?_, ?_⟩
  · rintro g rfl
    refine ⟨?_, ?_, ?_, ?_, ?_⟩
    · intro h1
      simp only [blastChance, Bool.false_eq_true, if_false]
      rw [if_pos h1]
    · intro h1 h2
      simp only [blastChance, Bool.false_eq_true, if_false]
      rw [if_neg (not_lt.mpr h1), if_pos h2]
    · intro h1 h2
      simp only [blastChance, Bool.false_eq_true, if_false]
      rw [if_neg (by linarith), if_neg (not_lt.mpr h1), if_pos h2]
    · intro h1 h2
      simp only [blastChance, Bool.false_eq_true, if_false]
      rw [if_neg (by linarith), if_neg (by linarith), if_neg (not_lt.mpr h1),
        if_pos h2]
    · intro h1
      simp only [blastChance, Bool.false_eq_true, if_false]
      rw [if_neg (by linarith), if_neg (by linarith), if_neg (by linarith),
        if_neg (not_lt.mpr h1)]
  · rintro g rfl
    refine ⟨?_, ?_, ?_⟩
    · intro h1 h2
      simp only [blastChance, if_true]
      rw [if_pos ⟨h1, h2⟩]
    · intro h1
      simp only [blastChance, if_true]
      rw [if_neg (by rintro ⟨-, hx⟩; linarith), if_pos h1]
    · intro h1
      simp only [blastChance, if_true]
      rw [if_neg (by rintro ⟨hx, -⟩; linarith), if_neg (by linarith)]

/-- C6 witness: at accumulated gain 20 in standard mode the blast chance is
`0.22`, and a tick with a zero gain draw and a blast draw of 1 does not
blast; at gain 85 in turbo mode the blast chance is `0.25`. -/
theorem C6_bitcrash_tick_witness :
    blastChance false 20 = 22/100 ∧
    bitCrashTick false 0 1 20 = (20, false) ∧
    blastChance true 85 = 1/4 := by
  have h := C6_bitcrash_tick false 0 1 20
  have ht := C6_bitcrash_tick true 0 1 85
  refine ⟨((h.2.1 20 rfl).2.1 (by norm_num) (by norm_num)), ?_,
    (ht.2.2 85 rfl).1 (by norm_num) (by norm_num)⟩
  rw [h.1]
  norm_num [blastChance]

/-- C7: starting an Ascending Bet deducts the stake from the cash balance
and runs the session; resolving with a winning altitude credits the full
payout `stake * 1.4`, ending exactly `stake * 0.4` above the
pre-stake-deduction balance, while a losing resolution leaves the balance at
its post-deduction value (stake forfeited). -/
theorem C7_goldfly_payout (s : Dash) (a alt : ℚ) (dir : GFDir)
    (hidle : s.isTrading = false) (hgf : s.goldFlyState = .idle)
    (ha : 0 < a) (hle : ¬ s.usdBalance < a) :
    (handleGoldFlyTrade (some a) dir s).1.usdBalance = s.usdBalance - a ∧
    (handleGoldFlyTrade (some a) dir s).1.goldFlyState = .running ∧
    (((dir = .up ∧ 50 < alt) ∨ (dir = .down ∧ alt < 50)) →
      (goldFlyResolve alt (handleGoldFlyTrade (some a) dir s).1).usdBalance
        = s.usdBalance + a * (4/10)) ∧
    (¬ ((dir = .up ∧ 50 < alt) ∨ (dir = .down ∧ alt < 50)) →
      (goldFlyResolve alt (handleGoldFlyTrade (some a) dir s).1).usdBalance
        = s.usdBalance - a) := by
  have hstart : handleGoldFlyTrade (some a) dir s
      = ({ s with isTrading := true
                  goldFlyBet := some (dir, a)
                  goldFlyState := .running
                  usdBalance := s.usdBalance - a }, none) := by
    unfold handleGoldFlyTrade
    rw [hidle, hgf]
    simp only [Bool.false_eq_true, if_false]
    rw [if_neg (by simp), if_neg hle]
  rw [hstart]
  refine ⟨rfl, rfl, ?_, ?_⟩
  · intro hwin
    show (if (dir = GFDir.up ∧ (50:ℚ) < alt) ∨ (dir = GFDir.down ∧ alt < 50) then
            s.usdBalance - a + a * GOLDFLY_PAYOUT_RATE
          else s.usdBalance - a) = s.usdBalance + a * (4/10)
    rw [if_pos hwin]
    unfold GOLDFLY_PAYOUT_RATE
    ring
  · intro hlose
    show (if (dir = GFDir.up ∧ (50:ℚ) < alt) ∨ (dir = GFDir.down ∧ alt < 50) then
            s.usdBalance - a + a * GOLDFLY_PAYOUT_RATE
          else s.usdBalance - a) = s.usdBalance - a
    rw [if_neg hlose]

/-- C7 witness: a 100 USD Up bet from 1000 USD cash deducts to 900; a
winning altitude of 60 resolves to 1040 = 1000 + 40, a losing altitude of 40
resolves to 900. -/
theorem C7_goldfly_payout_witness :
    (handleGoldFlyTrade (some 100) .up
        ⟨1000, 0, 0, 0, 100, false, .idle, none, .idle, 0, false⟩).1.usdBalance
      = 1000 - 100 ∧
    (goldFlyResolve 60 (handleGoldFlyTrade (some 100) .up
        ⟨1000, 0, 0, 0, 100, false, .idle, none, .idle, 0, false⟩).1).usdBalance
      = 1000 + 100 * (4/10) ∧
    (goldFlyResolve 40 (handleGoldFlyTrade (some 100) .up
        ⟨1000, 0, 0, 0, 100, false, .idle, none, .idle, 0, false⟩).1).usdBalance
      = 1000 - 100 := by
  have hw := C7_goldfly_payout
      ⟨1000, 0, 0, 0, 100, false, .idle, none, .idle, 0, false⟩ 100 60 .up
      rfl rfl (by norm_num) (by norm_num)
  have hl := C7_goldfly_payout
      ⟨1000, 0, 0, 0, 100, false, .idle, none, .idle, 0, false⟩ 100 40 .up
      rfl rfl (by norm_num) (by norm_num)
  refine ⟨hw.1, hw.2.2.1 (Or.inl ⟨rfl, by norm_num⟩), hl.2.2.2 ?_⟩
  rintro (⟨-, hx⟩ | ⟨hx, -⟩)
  · exact absurd hx (by norm_num)
  · exact GFDir.noConfusion hx

/-- C8: the regime-transition block leaves the current regime exactly when
the leave draw lands under `leaveProbabilityPerTick`; the `MID` pair
successor resolves via the secondary draw to `LOW` under 0.1, `HIGH` under
0.2, otherwise stays `MID`; `LOW` and `HIGH` deterministically move to
`MID`; and whenever the key actually changes the trend is forced to
`SIDEWAYS` with the duration counter reset to 0. -/
theorem C8_regime_transition (s : PriceState) (leaveDraw pairDraw coinDraw : ℚ) :
    (¬ leaveDraw < (priceRegimes s.regime).leaveProb →
       regimeStep s.regime leaveDraw pairDraw coinDraw = s.regime) ∧
    (leaveDraw < (priceRegimes s.regime).leaveProb → s.regime = .MID →
       (pairDraw < 1/10 →
          regimeStep s.regime leaveDraw pairDraw coinDraw = .LOW) ∧
       (1/10 ≤ pairDraw → pairDraw < 2/10 →
          regimeStep s.regime leaveDraw pairDraw coinDraw = .HIGH) ∧
       (2/10 ≤ pairDraw →
          regimeStep s.regime leaveDraw pairDraw coinDraw = .MID)) ∧
    (leaveDraw < (priceRegimes s.regime).leaveProb →
       s.regime = .LOW ∨ s.regime = .HIGH →
       regimeStep s.regime leaveDraw pairDraw coinDraw = .MID) ∧
    (regimeStep s.regime leaveDraw pairDraw coinDraw ≠ s.regime →
       regimeTransition s leaveDraw pairDraw coinDraw
         = (regimeStep s.regime leaveDraw pairDraw coinDraw, .SIDEWAYS, 0)) ∧
    (regimeStep s.regime leaveDraw pairDraw coinDraw = s.regime →
       regimeTransition s leaveDraw pairDraw coinDraw
         = (s.regime, s.trend, s.trendUpdatesLeft)) := by
  refine ⟨?_, ?_, ?_, ?_, ?_⟩
  · intro h
    unfold regimeStep
    rw [if_neg h]
  · intro hl hm
    refine ⟨?_, ?_, ?_⟩
    · intro h1
      unfold regimeStep resolveNext
      rw [hm] at hl ⊢
      rw [if_pos hl]
      simp only [priceRegimes]
      rw [if_pos trivial, if_pos h1]
    · intro h1 h2
      unfold regimeStep resolveNext
      rw [hm] at hl ⊢
      rw [if_pos hl]
      simp only [priceRegimes]
      rw [if_pos trivial, if_neg (not_lt.mpr h1), if_pos h2]
    · intro h1
      unfold regimeStep resolveNext
      rw [hm] at hl ⊢
      rw [if_pos hl]
      simp only [priceRegimes]
      rw [if_pos trivial, if_neg (by linarith), if_neg (not_lt.mpr h1)]
  · intro hl hk
    unfold regimeStep resolveNext
    rcases hk with hk | hk <;> rw [hk] at hl ⊢ <;> rw [if_pos hl] <;>
      simp [priceRegimes]
  · intro hne
    unfold regimeTransition
    rw [if_pos hne]
  · intro heq
    unfold regimeTransition
    rw [if_neg (by simp [heq]), heq]

/-- C8 witness: from `MID` with a firing leave draw, a secondary draw of
0.05 resolves to `LOW` and the transition forces `SIDEWAYS`/0; from `LOW`
with a firing leave draw the successor is `MID`; a non-firing draw keeps the
regime and trend state. -/
theorem C8_regime_transition_witness :
    regimeStep .MID 0 (5/100) 0 = .LOW ∧
    regimeTransition ⟨65000, .MID, .UP, 7⟩ 0 (5/100) 0
      = (.LOW, .SIDEWAYS, 0) ∧
    regimeStep .LOW 0 0 0 = .MID ∧
    regimeTransition ⟨65000, .MID, .UP, 7⟩ 1 (5/100) 0
      = (.MID, .UP, 7) := by
  have h := C8_regime_transition ⟨65000, .MID, .UP, 7⟩ 0 (5/100) 0
  have hlow := C8_regime_transition ⟨40000, .LOW, .SIDEWAYS, 0⟩ 0 0 0
  have hstay := C8_regime_transition ⟨65000, .MID, .UP, 7⟩ 1 (5/100) 0
  have h1 : regimeStep .MID 0 (5/100) 0 = .LOW :=
    ((h.2.1 (by norm_num [priceRegimes]) rfl).1 (by norm_num))
  have h3 : regimeStep .LOW 0 0 0 = .MID :=
    hlow.2.2.1 (by norm_num [priceRegimes]) (Or.inl rfl)
  have h4 : regimeStep .MID 1 (5/100) 0 = .MID :=
    hstay.1 (by norm_num [priceRegimes])
  exact ⟨h1, by rw [h.2.2.2.1 (by rw [h1]; decide)]; rw [h1],
         h3, hstay.2.2.2.2 h4⟩

/-- C9: with the portfolio value at or above 1,000,000 the trade commands
run in extreme mode — a funded buy resolves a bet that credits
`amount * 1.9` when the win draw lands under 0.2 and deducts `amount`
otherwise, touching no other balance, and every sell is rejected outright
with no state change; below the threshold a funded buy follows the normal
`calculateTrade` ledger semantics. -/
theorem C9_extreme_mode (s : Dash) (a w : ℚ)
    (hidle : s.isTrading = false) :
    (EXTREME_MODE_THRESHOLD ≤ portfolioValue s →
       handleTrade .sell a w s = (s, some .sellDisabledExtreme, none) ∧
       (¬ s.usdBalance < a →
         (w < 1/5 →
           handleTrade .buy a w s
             = ({ s with usdBalance := s.usdBalance + a * (19/10) }, none, none)) ∧
         (¬ w < 1/5 →
           handleTrade .buy a w s
             = ({ s with usdBalance := s.usdBalance - a }, none, none)))) ∧
    (portfolioValue s < EXTREME_MODE_THRESHOLD → ¬ s.usdBalance < a →
       handleTrade .buy a w s
         = ({ s with
              usdBalance := (calculateTrade .buy a s.currentPrice (posOf s)).usdBalance
              btcBalance := (calculateTrade .buy a s.currentPrice (posOf s)).btcBalance
              avgBtcCost := (calculateTrade .buy a s.currentPrice (posOf s)).avgBtcCost },
            none, none)) := by
  obtain ⟨usd, btc, avg, pl, price, tr, gf, gb, bc, gp, tb⟩ := s
  simp only at hidle
  subst hidle
  refine ⟨fun hpv => ⟨?_, fun hfund => ⟨fun hwin => ?_, fun hlose => ?_⟩⟩,
          fun hpv hfund => ?_⟩
  · unfold handleTrade
    simp only [Bool.false_eq_true, if_false]
    rw [if_pos hpv]
  · unfold handleTrade
    simp only [Bool.false_eq_true, if_false]
    rw [if_pos hpv]
    simp only [if_neg hfund, if_pos hwin]
  · unfold handleTrade
    simp only [Bool.false_eq_true, if_false]
    rw [if_pos hpv]
    simp only [if_neg hfund, if_neg hlose]
    simp [sub_eq_add_neg]
  · unfold handleTrade
    simp only [Bool.false_eq_true, if_false]
    rw [if_neg (not_le.mpr hpv)]
    simp only [if_neg hfund]

/-- C9 witness: with 2,000,000 USD cash (portfolio over the threshold), a
funded 100 USD buy credits 190 on a winning draw and deducts 100 on a losing
draw, and a sell is rejected with state unchanged; with 1,000 USD cash a
funded 100 USD buy follows `calculateTrade`. -/
theorem C9_extreme_mode_witness :
    handleTrade .sell 100 0
        ⟨2000000, 0, 0, 0, 100, false, .idle, none, .idle, 0, false⟩
      = (⟨2000000, 0, 0, 0, 100, false, .idle, none, .idle, 0, false⟩,
         some .sellDisabledExtreme, none) ∧
    (handleTrade .buy 100 0
        ⟨2000000, 0, 0, 0, 100, false, .idle, none, .idle, 0, false⟩).1.usdBalance
      = 2000000 + 100 * (19/10) ∧
    (handleTrade .buy 100 (1/2)
        ⟨2000000, 0, 0, 0, 100, false, .idle, none, .idle, 0, false⟩).1.usdBalance
      = 2000000 - 100 ∧
    (handleTrade .buy 100 0
        ⟨1000, 0, 0, 0, 100, false, .idle, none, .idle, 0, false⟩).1.btcBalance
      = (calculateTrade .buy 100 100
          (posOf ⟨1000, 0, 0, 0, 100, false, .idle, none, .idle, 0, false⟩)).btcBalance := by
  have h := C9_extreme_mode
      ⟨2000000, 0, 0, 0, 100, false, .idle, none, .idle, 0, false⟩ 100 0 rfl
  have h2 := C9_extreme_mode
      ⟨2000000, 0, 0, 0, 100, false, .idle, none, .idle, 0, false⟩ 100 (1/2) rfl
  have h3 := C9_extreme_mode
      ⟨1000, 0, 0, 0, 100, false, .idle, none, .idle, 0, false⟩ 100 0 rfl
  have hpv : EXTREME_MODE_THRESHOLD
      ≤ portfolioValue ⟨2000000, 0, 0, 0, 100, false, .idle, none, .idle, 0, false⟩ := by
    norm_num [portfolioValue, EXTREME_MODE_THRESHOLD]
  refine ⟨(h.1 hpv).1, ?_, ?_, ?_⟩
  · rw [((h.1 hpv).2 (by norm_num)).1 (by norm_num)]
  · rw [((h2.1 hpv).2 (by norm_num)).2 (by norm_num)]
  · rw [h3.2 (by norm_num [portfolioValue, EXTREME_MODE_THRESHOLD]) (by norm_num)]

/-- C10: the balance lockouts on the wager engines.  With the cash balance
over 10,000,000 a press of the GoldFly buttons is a no-op (the buttons are
disabled), and with the cash balance over 25,000,000 a press of the BitCrash
Fly button is a no-op: no stake is deducted and the session state is exactly
unchanged. -/
theorem C10_wager_lockouts (s : Dash) (amount : Option ℚ) (dir : GFDir)
    (turboDraw : ℚ) :
    (GOLDFLY_LOCKOUT_THRESHOLD < s.usdBalance →
       goldFlyPress amount dir s = (s, none)) ∧
    (BITCRASH_LOCKOUT_THRESHOLD < s.usdBalance →
       bitCrashPress amount turboDraw s = (s, none)) := by
  constructor
  · intro h
    unfold goldFlyPress
    rw [if_pos]
    rw [isGoldFlyLocked, decide_eq_true h]
    simp
  · intro h
    unfold bitCrashPress
    split_ifs with h1 h2
    · rfl
    · rfl
    · exfalso
      apply h2
      rw [isBitCrashLocked, decide_eq_true h]
      simp

/-- C10 witness: with 20,000,000 USD cash a GoldFly press is a no-op, and
with 30,000,000 USD cash a BitCrash press is a no-op. -/
theorem C10_wager_lockouts_witness :
    goldFlyPress (some 100) .up
        ⟨20000000, 0, 0, 0, 100, false, .idle, none, .idle, 0, false⟩
      = (⟨20000000, 0, 0, 0, 100, false, .idle, none, .idle, 0, false⟩, none) ∧
    bitCrashPress (some 100) 0
        ⟨30000000, 0, 0, 0, 100, false, .idle, none, .idle, 0, false⟩
      = (⟨30000000, 0, 0, 0, 100, false, .idle, none, .idle, 0, false⟩, none) :=
  ⟨(C10_wager_lockouts
      ⟨20000000, 0, 0, 0, 100, false, .idle, none, .idle, 0, false⟩
      (some 100) .up 0).1 (by norm_num [GOLDFLY_LOCKOUT_THRESHOLD]),
   (C10_wager_lockouts
      ⟨30000000, 0, 0, 0, 100, false, .idle, none, .idle, 0, false⟩
      (some 100) .up 0).2 (by norm_num [BITCRASH_LOCKOUT_THRESHOLD])⟩

end GaugeMeter
